import Mathlib

/-!
Verification development for the dataknot repository.

The subject is the conversation-persistence and artifact-management layer of
the desktop chat client: the ChatManager class of src/main.js (an identical
copy, up to one model-name string, lives in src/unnamed/part_004), which
stores conversations in per-conversation directories under a storage root
(chat_history/), keeps a metadata record per conversation, processes the
DataKnot classification command on persist, stores per-conversation
artifacts, and builds the outbound prompt for the inference backend.

Modelling conventions (shallow embedding):

* The storage root is modelled as an ordered association list of named
  filesystem nodes (files and directories); Store is none when the root
  directory does not exist.  Node fs calls map to operations on this tree:
  readdirSync is the entry list in order, existsSync is lookup success,
  mkdirSync inserts an empty directory, writeFileSync inserts or replaces a
  file, and the recursive folder removal helper removeDirectoryRecursive is
  modelled as dropping the directory entry from its parent.
* The text of a JSON file is abstracted to its parse: FileContent.jsonDoc v
  stands for text that JSON.parse maps to the value v (JSON.stringify of a
  value v always reparses to v for the plain data handled here), rawDoc s
  for text that is not valid JSON, and binDoc for raw bytes (binary payloads
  are likewise modelled as not being valid JSON).
* JS numbers appearing in this component are nonnegative integers
  (Date.now() timestamps, ids, message counts), modelled as Nat.  Date.now()
  is passed in as an explicit parameter called now.
* JS string operations trim / toLowerCase / substring / startsWith are
  modelled over the character list of the string; trim covers ASCII
  whitespace, toLowerCase lowers ASCII letters, which agrees with JS on all
  claim-relevant inputs.
* Exceptions that a method lets escape are modelled with Except; a JS
  try/catch that logs and falls through is modelled by mapping the inner
  Except.error to the method's normal return value.
-/

/-! ## JS string primitives -/

/-- JS String.prototype.startsWith, via the character list of the string. -/
def jsStartsWith (s pre : String) : Bool :=
  pre.data.isPrefixOf s.data

/-- JS String.prototype.trim restricted to ASCII whitespace. -/
def jsTrim (s : String) : String :=
  ⟨((s.data.dropWhile Char.isWhitespace).reverse.dropWhile Char.isWhitespace).reverse⟩

/-- JS String.prototype.toLowerCase restricted to ASCII letters. -/
def jsToLower (s : String) : String :=
  ⟨s.data.map Char.toLower⟩

/-- JS String.prototype.substring(n): drop the first n characters. -/
def jsSubstringFrom (s : String) (n : Nat) : String :=
  ⟨s.data.drop n⟩

/-- JS Array.prototype.join(sep). -/
def joinSep (sep : String) : List String → String
  | [] => ""
  | [x] => x
  | x :: y :: xs => x ++ sep ++ joinSep sep (y :: xs)

/-! ## JSON values -/

/-- A parsed JSON value.  Numbers are Nat: every number this component
produces or inspects is a nonnegative integer (timestamp, id or count). -/
inductive JVal where
  | null : JVal
  | bool : Bool → JVal
  | num : Nat → JVal
  | str : String → JVal
  | arr : List JVal → JVal
  | obj : List (String × JVal) → JVal

/-- Ordered association-list lookup: first binding of the key wins.  Models
both JS object property access and directory-entry lookup by name. -/
def alGet {α : Type} : List (String × α) → String → Option α
  | [], _ => none
  | p :: es, nm => if p.1 = nm then some p.2 else alGet es nm

/-- Ordered association-list update: replaces the first binding in place, or
appends a new binding at the end (JS insertion-order semantics). -/
def alSet {α : Type} : List (String × α) → String → α → List (String × α)
  | [], nm, v => [(nm, v)]
  | p :: es, nm, v => if p.1 = nm then (nm, v) :: es else p :: alSet es nm v

/-- JS property read m.k; undefined (none) on a non-object. -/
def getField (m : JVal) (k : String) : Option JVal :=
  match m with
  | .obj fs => alGet fs k
  | _ => none

/-- JS property assignment m.k = v.  On a non-object primitive the
assignment is a silent no-op (non-strict mode); the one primitive where JS
instead throws, null, never reaches a setField call in this embedding
because every metadata value written by the repository is an object. -/
def setField (m : JVal) (k : String) (v : JVal) : JVal :=
  match m with
  | .obj fs => .obj (alSet fs k v)
  | m => m

/-- Is the value a JSON object? -/
def isObj : JVal → Bool
  | .obj _ => true
  | _ => false

/-- JS falsiness of an optional value: undefined, null, false, 0 and the
empty string are falsy. -/
def jsFalsy : Option JVal → Bool
  | none => true
  | some .null => true
  | some (.bool b) => !b
  | some (.num n) => n == 0
  | some (.str s) => s == ""
  | some (.arr _) => false
  | some (.obj _) => false

/-- The === '' comparison used alongside the falsiness check at
src/main.js:402. -/
def isEmptyStrOpt : Option JVal → Bool
  | some (.str s) => s == ""
  | _ => false

/-! ## Data model: messages and conversations -/

/-- One chat message: role is the author tag ("user" or "assistant"),
content is the text. -/
structure Message where
  role : String
  content : String

/-- A conversation as the UI layer hands it to the repository: timestamp id,
title, and the ordered message list. -/
structure Conversation where
  id : Nat
  title : String
  messages : List Message

/-- JSON.stringify image of a message. -/
def msgToJson (m : Message) : JVal :=
  .obj [("role", .str m.role), ("content", .str m.content)]

/-- JSON.stringify image of a conversation (the conversation.json body). -/
def convToJson (c : Conversation) : JVal :=
  .obj [("id", .num c.id), ("title", .str c.title),
        ("messages", .arr (c.messages.map msgToJson))]

/-! ## Filesystem model -/

/-- Content of one file, abstracted to how JSON.parse sees it (see the
header comment). -/
inductive FileContent where
  | jsonDoc : JVal → FileContent
  | rawDoc : String → FileContent
  | binDoc : List Nat → FileContent

/-- A filesystem node: a file with content, or a directory with an ordered
list of named children. -/
inductive FsNode where
  | file : FileContent → FsNode
  | dir : List (String × FsNode) → FsNode

/-- The entry list of a directory. -/
abbrev Entries := List (String × FsNode)

/-- The storage root (the chat_history directory): none when the directory
does not exist, otherwise its entries in readdir order. -/
abbrev Store := Option Entries

/-- Is the node a directory (statSync(...).isDirectory())? -/
def isDirNode : FsNode → Bool
  | .dir _ => true
  | .file _ => false

/-- Resolve a relative path below a node; none when a component is missing
or a non-final component is a file (existsSync on the full path is then
false). -/
def resolveNode : FsNode → List String → Option FsNode
  | node, [] => some node
  | .dir es, nm :: rest =>
    match alGet es nm with
    | some child => resolveNode child rest
    | none => none
  | .file _, _ :: _ => none

/-- Resolve a path below the storage root. -/
def resolveStore (s : Store) (path : List String) : Option FsNode :=
  match s with
  | none => none
  | some es => resolveNode (.dir es) path

/-- The folder name of a conversation: the JS template literal
chat_${conversationId}. -/
def dirName (id : Nat) : String :=
  "chat_" ++ toString id

/-- The test applied to each storage-root entry throughout the class:
statSync(filePath).isDirectory() && file.startsWith('chat_'). -/
def isChatDirEntry (p : String × FsNode) : Bool :=
  isDirNode p.2 && jsStartsWith p.1 "chat_"

/-- Names of the conversation directories present under the storage root. -/
def chatDirNames (s : Store) : List String :=
  match s with
  | none => []
  | some es => (es.filter isChatDirEntry).map Prod.fst

/-- Well-formedness of the root used as a hypothesis where the code would
otherwise hit an ENOTDIR crash: every chat_-prefixed entry of the root is a
directory (the system itself only ever creates directories under these
names). -/
def noChatFiles (s : Store) : Bool :=
  match s with
  | none => true
  | some es => es.all fun p => !(jsStartsWith p.1 "chat_") || isDirNode p.2

/-! ## Metadata pipeline of saveChatHistory (src/main.js:376-444) -/

/-- Lines 393-404: overwrite the standard metadata fields on the record read
from disk, then default projectType to chat when it is absent or empty. -/
def updateStandardFields (now : Nat) (c : Conversation) (m0 : JVal) : JVal :=
  let m := setField m0 "id" (.num c.id)
  let m := setField m "title" (.str c.title)
  let m := setField m "created" (.num c.id)
  let m := setField m "lastModified" (.num now)
  let m := setField m "messageCount" (.num c.messages.length)
  let m := setField m "version" (.str "1.0")
  if jsFalsy (getField m "projectType") || isEmptyStrOpt (getField m "projectType") then
    setField m "projectType" (.str "chat")
  else m

/-- Lines 410-412: the most recently appended user-authored message. -/
def lastUserMessage (c : Conversation) : Option Message :=
  (c.messages.filter fun m => m.role == "user").getLast?

/-- Lines 406-444, the DataKnot command processor: if the last user message,
trimmed and lowercased, starts with dataknot:, extract the command after the
prefix; the command start recipe sets projectType to recipe and refreshes
lastModified, any other command only logs. -/
def applyDataKnot (now : Nat) (c : Conversation) (m : JVal) : JVal :=
  match lastUserMessage c with
  | none => m
  | some msg =>
    let messageContent := jsToLower (jsTrim msg.content)
    if jsStartsWith messageContent "dataknot:" then
      let command := jsTrim (jsSubstringFrom messageContent 9)
      if command = "start recipe" then
        setField (setField m "projectType" (.str "recipe")) "lastModified" (.num now)
      else m
    else m

/-- The full metadata rewrite applied per conversation during
saveChatHistory, lines 393-444. -/
def computeMetadata (now : Nat) (c : Conversation) (m0 : JVal) : JVal :=
  applyDataKnot now c (updateStandardFields now c m0)

/-! ## saveChatHistory (src/main.js:338-470) -/

/-- The body of the conversations.forEach loop, lines 357-466: create the
conversation directory and its artifacts subdirectory when absent, write
conversation.json, then read-modify-write metadata.json.  The verification
read-back at lines 450-465 only logs and is omitted.  The read of an
existing metadata.json yields the empty object when the file is missing or
its content is not valid JSON (lines 381-391). -/
def saveConversationStep (now : Nat) (es : Entries) (c : Conversation) : Entries :=
  let dn := dirName c.id
  let convEs :=
    match alGet es dn with
    | some (.dir ces) => ces
    | some (.file _) => []
    | none => []
  let convEs :=
    if (alGet convEs "artifacts").isSome then convEs
    else alSet convEs "artifacts" (.dir [])
  let convEs := alSet convEs "conversation.json" (.file (.jsonDoc (convToJson c)))
  let m0 : JVal :=
    match (alGet convEs "metadata.json" : Option FsNode) with
    | some (.file (.jsonDoc v)) => v
    | some _ => .obj []
    | none => .obj []
  let convEs :=
    alSet convEs "metadata.json" (.file (.jsonDoc (computeMetadata now c m0)))
  alSet es dn (.dir convEs)

/-- saveChatHistory: ensure the root exists, delete every chat_-prefixed
directory under it (lines 345-354), then save each supplied conversation
into a fresh folder (lines 357-466). -/
def saveChatHistory (now : Nat) (conversations : List Conversation) (s : Store) : Store :=
  let es :=
    match s with
    | none => []
    | some es => es
  let es := es.filter fun p => !(isChatDirEntry p)
  some (conversations.foldl (saveConversationStep now) es)

/-! ## loadChatHistory (src/main.js:558-598) -/

/-- Sort key used by conversations.sort((a, b) => b.id - a.id); a body
without a numeric id is abstracted to key 0 (JS NaN comparisons; every body
this development sorts carries a numeric id). -/
def jsIdKey (v : JVal) : Nat :=
  match getField v "id" with
  | some (.num n) => n
  | _ => 0

/-- Insert into a list already sorted by descending id, after any entry
with an id at least as large (stable, like the JS sort on these inputs). -/
def insertByIdDesc (x : JVal) : List JVal → List JVal
  | [] => [x]
  | y :: ys => if jsIdKey y < jsIdKey x then x :: y :: ys else y :: insertByIdDesc x ys

/-- The sort at line 591: newest (largest id) first. -/
def sortByIdDesc : List JVal → List JVal
  | [] => []
  | x :: xs => insertByIdDesc x (sortByIdDesc xs)

/-- Read one conversation folder, lines 575-588: parse conversation.json;
a missing file is skipped silently, an unreadable or unparsable one is
caught, logged and skipped. -/
def readConvBody (p : String × FsNode) : Option JVal :=
  match p.2 with
  | .dir ces =>
    match alGet ces "conversation.json" with
    | some (.file (.jsonDoc v)) => some v
    | _ => none
  | .file _ => none

/-- loadChatHistory: enumerate chat_-prefixed directories, parse each body,
sort newest first.  Returns the loaded list and the (unchanged) root. -/
def loadChatHistory (s : Store) : List JVal × Store :=
  match s with
  | none => ([], s)
  | some es =>
    let conversationDirs := es.filter isChatDirEntry
    let conversations := conversationDirs.filterMap readConvBody
    (sortByIdDesc conversations, s)

/-! ## Initialization (src/main.js:284-307, 475-513, 637-663) -/

/-- Per-entry step of createArtifactsDirectories, lines 645-659: give every
chat_-prefixed conversation directory an artifacts subdirectory. -/
def ensureArtifactsNode (n : String) (node : FsNode) : FsNode :=
  match node with
  | .dir es =>
    if jsStartsWith n "chat_" then
      if (alGet es "artifacts").isSome then node
      else .dir (alSet es "artifacts" (.dir []))
    else node
  | .file _ => node

/-- createArtifactsDirectories (lines 637-663). -/
def createArtifactsDirectories (s : Store) : Store :=
  match s with
  | none => none
  | some es => some (es.map fun p => (p.1, ensureArtifactsNode p.1 p.2))

/-- Per-entry step of initializeDefaultProjectTypes, lines 482-507: when a
chat_-prefixed directory has a metadata.json that exists and parses, and its
projectType is falsy, set projectType to chat and refresh lastModified; a
missing metadata.json gets nothing, an unparsable one is caught and
skipped. -/
def backfillTypeNode (now : Nat) (n : String) (node : FsNode) : FsNode :=
  match node with
  | .dir es =>
    if jsStartsWith n "chat_" then
      match alGet es "metadata.json" with
      | some (.file (.jsonDoc v)) =>
        if jsFalsy (getField v "projectType") then
          .dir (alSet es "metadata.json"
            (.file (.jsonDoc
              (setField (setField v "projectType" (.str "chat")) "lastModified" (.num now)))))
        else node
      | _ => node
    else node
  | .file _ => node

/-- initializeDefaultProjectTypes (lines 475-513). -/
def initializeDefaultProjectTypes (now : Nat) (s : Store) : Store :=
  match s with
  | none => none
  | some es => some (es.map fun p => (p.1, backfillTypeNode now p.1 p.2))

/-- initChatHistory (lines 284-307): create the root when missing, ensure
artifacts directories, backfill project types, then load. -/
def initChatHistory (now : Nat) (s : Store) : List JVal × Store :=
  let s1 : Store :=
    some
      (match s with
       | none => []
       | some es => es)
  let s2 := createArtifactsDirectories s1
  let s3 := initializeDefaultProjectTypes now s2
  loadChatHistory s3

/-! ## Artifact store (src/main.js:672-767) -/

/-- The payload handed to saveConversationArtifact: a structured JS value or
a Buffer of raw bytes. -/
inductive ArtifactData where
  | jsv : JVal → ArtifactData
  | bytes : List Nat → ArtifactData

/-- JSON.stringify image of a payload; a Buffer stringifies to its standard
JSON form, an object with type "Buffer" and the data array. -/
def artifactJson : ArtifactData → JVal
  | .jsv v => v
  | .bytes b => .obj [("type", .str "Buffer"), ("data", .arr (b.map JVal.num))]

/-- The write performed by one branch of the switch at lines 690-702:
json stringifies the payload, text writes character data (writeFileSync
with a non-string, non-Buffer payload throws a TypeError), binary writes
the payload bytes (a string payload is utf8-encoded text).  The catch-all
default branch throws the unsupported-type error. -/
def encodeArtifact (d : ArtifactData) (ty : String) : Except String FileContent :=
  if ty = "json" then .ok (.jsonDoc (artifactJson d))
  else if ty = "text" then
    match d with
    | .jsv (.str s) => .ok (.rawDoc s)
    | .jsv _ => .error "TypeError: data must be a string or a buffer"
    | .bytes b => .ok (.binDoc b)
  else if ty = "binary" then
    match d with
    | .jsv (.str s) => .ok (.rawDoc s)
    | .jsv _ => .error "TypeError: data must be a string or a buffer"
    | .bytes b => .ok (.binDoc b)
  else .error ("Unsupported artifact type: " ++ ty)

/-- Write the artifact inside the artifacts directory entries. -/
def saveArtifactInArtifacts (nm : String) (d : ArtifactData) (ty : String)
    (artEs : Entries) : Except String Unit × Entries :=
  match encodeArtifact d ty with
  | .ok content => (.ok (), alSet artEs nm (.file content))
  | .error e => (.error e, artEs)

/-- Steps of saveConversationArtifact below the conversation directory:
create the artifacts subdirectory when absent (lines 684-686), then run the
encoding switch; when a file squats on the artifacts name, the directory
creation or the write throws ENOTDIR. -/
def saveArtifactInConv (nm : String) (d : ArtifactData) (ty : String)
    (convEs : Entries) : Except String Unit × Entries :=
  match (alGet convEs "artifacts" : Option FsNode) with
  | some (.dir artEs) =>
    let r := saveArtifactInArtifacts nm d ty artEs
    (r.1, alSet convEs "artifacts" (.dir r.2))
  | some (.file _) => (.error "ENOTDIR: not a directory", convEs)
  | none =>
    let r := saveArtifactInArtifacts nm d ty []
    (r.1, alSet convEs "artifacts" (.dir r.2))

/-- The try body of saveConversationArtifact, lines 673-704: ensure the
conversation directory (creating the root on the way, lines 679-681), then
write below it.  The store returned carries every directory created before
a throw, since those mkdir calls already happened. -/
def saveArtifactBody (conversationId : Nat) (nm : String) (d : ArtifactData)
    (ty : String) (s : Store) : Except String Unit × Store :=
  let rootEs :=
    match s with
    | none => []
    | some es => es
  match (alGet rootEs (dirName conversationId) : Option FsNode) with
  | some (.dir convEs) =>
    let r := saveArtifactInConv nm d ty convEs
    (r.1, some (alSet rootEs (dirName conversationId) (.dir r.2)))
  | some (.file _) => (.error "ENOTDIR: not a directory, mkdir", some rootEs)
  | none =>
    let r := saveArtifactInConv nm d ty []
    (r.1, some (alSet rootEs (dirName conversationId) (.dir r.2)))

/-- saveConversationArtifact (lines 672-708): the catch at lines 705-707
logs any error and falls through, so the method always returns undefined
normally; modelled as mapping the inner error to .ok (). -/
def saveConversationArtifact (conversationId : Nat) (nm : String) (d : ArtifactData)
    (ty : String) (s : Store) : Except String Unit × Store :=
  let r := saveArtifactBody conversationId nm d ty s
  (match r.1 with
   | .ok u => .ok u
   | .error _ => .ok (), r.2)

/-- What loadConversationArtifact hands back on success: the JSON.parse
result for json, or the file's content as read for text and binary (the
text and binary branches return the stored bytes unchanged, so the model
keeps the stored document rather than re-rendering it). -/
inductive ArtifactValue where
  | jsonV : JVal → ArtifactValue
  | textV : FileContent → ArtifactValue
  | binV : FileContent → ArtifactValue

/-- The try body of loadConversationArtifact, lines 718-739: a missing file
returns null before any read; reading a directory throws; the json branch
throws on content that is not valid JSON; an unknown type throws after the
read. -/
def loadArtifactBody (conversationId : Nat) (nm : String) (ty : String)
    (s : Store) : Except String (Option ArtifactValue) :=
  match resolveStore s [dirName conversationId, "artifacts", nm] with
  | none => .ok none
  | some (.dir _) => .error "EISDIR: illegal operation on a directory, read"
  | some (.file content) =>
    if ty = "json" then
      match content with
      | .jsonDoc v => .ok (some (.jsonV v))
      | _ => .error "SyntaxError: Unexpected token in JSON"
    else if ty = "text" then .ok (some (.textV content))
    else if ty = "binary" then .ok (some (.binV content))
    else .error ("Unsupported artifact type: " ++ ty)

/-- loadConversationArtifact (lines 717-744): the catch at lines 740-743
logs any error and returns null, so every failure reaches the caller as the
not-found sentinel; the method itself never throws. -/
def loadConversationArtifact (conversationId : Nat) (nm : String) (ty : String)
    (s : Store) : Except String (Option ArtifactValue) × Store :=
  match loadArtifactBody conversationId nm ty s with
  | .ok v => (.ok v, s)
  | .error _ => (.ok none, s)

/-- getConversationArtifacts (lines 751-767): list the artifacts directory,
with an empty list when it is missing or when readdirSync throws because a
file squats on the name. -/
def getConversationArtifacts (conversationId : Nat) (s : Store) : List String × Store :=
  match resolveStore s [dirName conversationId, "artifacts"] with
  | some (.dir artEs) => (artEs.map Prod.fst, s)
  | some (.file _) => ([], s)
  | none => ([], s)

/-! ## Inference gateway client (src/main.js:911-983) -/

/-- Lines 915-927, the context-building step of sendMessageToAPI: an empty
buffer sends the message verbatim; otherwise each buffered message renders
as Role: content with user capitalized to User and every other role
labelled AI, entries joined by a blank line, and the new message appended
as a final User entry. -/
def buildContext (conversationBuffer : List Message) (messageContent : String) : String :=
  if conversationBuffer.length > 0 then
    (joinSep "\n\n" (conversationBuffer.map fun msg =>
      (if msg.role == "user" then "User" else "AI") ++ ": " ++ msg.content))
      ++ "\n\nUser: " ++ messageContent
  else messageContent

/-- The same step written from the specification's words: render every
buffered message, append the new message in the same User format, and join
everything with blank lines; an empty buffer yields the message verbatim. -/
def buildContextSpec (conversationBuffer : List Message) (messageContent : String) : String :=
  if conversationBuffer.isEmpty then messageContent
  else
    joinSep "\n\n"
      ((conversationBuffer.map fun msg =>
        (if msg.role == "user" then "User" else "AI") ++ ": " ++ msg.content)
        ++ ["User: " ++ messageContent])

/-- The outbound exchange as assembled by sendMessageToAPI: the JSON body
fields of lines 929-933 and the claude-api-key header of lines 943-950.
The two boilerplate headers Content-Type and Content-Length, identical on
every request, are not tracked. -/
structure ApiRequest where
  prompt : String
  model : String
  reset_conversation : Bool
  claudeKeyHeader : Option String

/-- JS truthiness of the claudeApiKey argument: present and non-empty. -/
def jsStrTruthy : Option String → Bool
  | none => false
  | some s => !(s == "")

/-- Request construction in src/main.js sendMessageToAPI, lines 911-957:
the claude-api-key header is attached exactly when the model is
claude-sonnet-4-5 and a truthy key was supplied. -/
def buildApiRequest (messageContent : String) (conversationBuffer : List Message)
    (model : String) (claudeApiKey : Option String) : ApiRequest :=
  { prompt := buildContext conversationBuffer messageContent
    model := model
    reset_conversation := false
    claudeKeyHeader :=
      if model == "claude-sonnet-4-5" && jsStrTruthy claudeApiKey then claudeApiKey
      else none }

/-- What the HTTP exchange produced: a transport error (the request error
event), or a response whose body either parses as JSON (some value) or does
not (none). -/
inductive HttpOutcome where
  | transportError : String → HttpOutcome
  | response : Option JVal → HttpOutcome

/-- How a sendMessageToAPI exchange ends at the caller. -/
inductive JsErr where
  | network : String → JsErr
  | protocol : String → JsErr

/-- Response handling in src/main.js sendMessageToAPI, lines 958-978: a
transport error rejects with it; an unparsable body rejects with the
invalid-JSON error; a body that parses to null also rejects with the same
error, because reading data.response on null throws inside the try and the
catch wraps every throw in that one message; any other parsed envelope
resolves with its response field, whatever it is (undefined when the field
is absent — there is no inspection of an error field). -/
def handleApiResponse (outcome : HttpOutcome) : Except JsErr (Option JVal) :=
  match outcome with
  | .transportError e => .error (.network e)
  | .response none => .error (.protocol "Invalid JSON response from server")
  | .response (some .null) => .error (.protocol "Invalid JSON response from server")
  | .response (some data) => .ok (getField data "response")

/-! ## The duplicate ChatManager of src/unnamed/part_004

The class in src/unnamed/part_004 is token-for-token identical to the one
in src/main.js except for the model name guarding the claude-api-key header
in sendMessageToAPI (part_004 line 575 tests claude-3-5-sonnet where
src/main.js line 948 tests claude-sonnet-4-5).  The differing method is
embedded below in full; the context building and response handling inside
it are re-embedded from the part_004 text. -/

/-- Context building of sendMessageToAPI in src/unnamed/part_004, lines
551-559 (textually identical to the src/main.js version). -/
def buildContextB (conversationBuffer : List Message) (messageContent : String) : String :=
  if conversationBuffer.length > 0 then
    (joinSep "\n\n" (conversationBuffer.map fun msg =>
      (if msg.role == "user" then "User" else "AI") ++ ": " ++ msg.content))
      ++ "\n\nUser: " ++ messageContent
  else messageContent

/-- Request construction of sendMessageToAPI in src/unnamed/part_004, lines
549-585: identical except that the key header is guarded by the model name
claude-3-5-sonnet. -/
def buildApiRequestB (messageContent : String) (conversationBuffer : List Message)
    (model : String) (claudeApiKey : Option String) : ApiRequest :=
  { prompt := buildContextB conversationBuffer messageContent
    model := model
    reset_conversation := false
    claudeKeyHeader :=
      if model == "claude-3-5-sonnet" && jsStrTruthy claudeApiKey then claudeApiKey
      else none }

/-- Response handling of sendMessageToAPI in src/unnamed/part_004, lines
585-605 (textually identical to the src/main.js version, null-envelope
rejection included). -/
def handleApiResponseB (outcome : HttpOutcome) : Except JsErr (Option JVal) :=
  match outcome with
  | .transportError e => .error (.network e)
  | .response none => .error (.protocol "Invalid JSON response from server")
  | .response (some .null) => .error (.protocol "Invalid JSON response from server")
  | .response (some data) => .ok (getField data "response")

/-! ## Proof-layer definitions -/

/-- The entry list saveConversationStep builds for a conversation whose
directory was (re)created from scratch: artifacts directory, body, and the
metadata computed from the empty record. -/
def freshConvDir (now : Nat) (c : Conversation) : Entries :=
  [("artifacts", .dir []),
   ("conversation.json", .file (.jsonDoc (convToJson c))),
   ("metadata.json", .file (.jsonDoc (computeMetadata now c (.obj []))))]

/-- Well-formedness of the artifact path of one conversation, used as a
hypothesis where the code would otherwise crash with ENOTDIR: no file
squats on the conversation directory name or on its artifacts name. -/
def convPathWF (s : Store) (cid : Nat) : Bool :=
  let rootEs :=
    match s with
    | none => []
    | some es => es
  match (alGet rootEs (dirName cid) : Option FsNode) with
  | none => true
  | some (.file _) => false
  | some (.dir convEs) =>
    match (alGet convEs "artifacts" : Option FsNode) with
    | some (.file _) => false
    | _ => true

/-! ## Association-list lemmas -/

theorem alGet_alSet_self {α : Type} (l : List (String × α)) (k : String) (v : α) :
    alGet (alSet l k v) k = some v := by
  induction l with
  | nil => simp [alSet, alGet]
  | cons p es ih =>
    by_cases h : p.1 = k
    · simp [alSet, alGet, h]
    · simp [alSet, alGet, h, ih]

theorem alGet_alSet_ne {α : Type} (l : List (String × α)) (k k' : String) (v : α)
    (h : k' ≠ k) : alGet (alSet l k v) k' = alGet l k' := by
  induction l with
  | nil => simp [alSet, alGet, Ne.symm h]
  | cons p es ih =>
    by_cases hp : p.1 = k
    · simp [alSet, alGet, hp, Ne.symm h]
    · simp [alSet, alGet, hp, ih]

theorem alSet_eq_append {α : Type} (l : List (String × α)) (k : String) (v : α)
    (h : alGet l k = none) : alSet l k v = l ++ [(k, v)] := by
  induction l with
  | nil => rfl
  | cons p es ih =>
    by_cases hp : p.1 = k
    · simp [alGet, hp] at h
    · simp only [alGet, hp, if_false, if_neg hp] at h ⊢
      simp [alSet, hp, ih h]

theorem alGet_append_none {α : Type} (l m : List (String × α)) (k : String)
    (h : alGet l k = none) : alGet (l ++ m) k = alGet m k := by
  induction l with
  | nil => rfl
  | cons p es ih =>
    by_cases hp : p.1 = k
    · simp [alGet, hp] at h
    · simp only [alGet, hp, if_neg hp] at h ⊢
      simp [List.cons_append, alGet, hp, ih h]

theorem alGet_eq_none_of_forall {α : Type} (l : List (String × α)) (k : String)
    (h : ∀ p ∈ l, p.1 ≠ k) : alGet l k = none := by
  induction l with
  | nil => rfl
  | cons p es ih =>
    simp [alGet, h p (List.mem_cons_self p es), ih fun q hq => h q (List.mem_cons_of_mem p hq)]

theorem alGet_map_keyed {α β : Type} (f : String → α → β) (l : List (String × α)) (k : String) :
    alGet (l.map fun p => (p.1, f p.1 p.2)) k = (alGet l k).map (f k) := by
  induction l with
  | nil => rfl
  | cons p es ih =>
    by_cases hp : p.1 = k
    · subst hp; simp [alGet]
    · simp [alGet, hp, ih]

/-! ## Field lemmas -/

theorem getField_setField_self (m : JVal) (k : String) (v : JVal) (h : isObj m = true) :
    getField (setField m k v) k = some v := by
  cases m <;> simp_all [isObj, setField, getField, alGet_alSet_self]

theorem getField_setField_ne (m : JVal) (k k' : String) (v : JVal) (h : k' ≠ k) :
    getField (setField m k v) k' = getField m k' := by
  cases m <;> simp [setField, getField, alGet_alSet_ne _ _ _ _ h]

theorem isObj_setField (m : JVal) (k : String) (v : JVal) :
    isObj (setField m k v) = isObj m := by
  cases m <;> rfl

theorem isObj_updateStandardFields (now : Nat) (c : Conversation) (m : JVal) :
    isObj (updateStandardFields now c m) = isObj m := by
  unfold updateStandardFields
  dsimp only
  split <;> simp [isObj_setField]

/-! ## String and join lemmas -/

theorem string_data_append (a b : String) : (a ++ b).data = a.data ++ b.data := rfl

theorem isPrefixOf_append_self (l r : List Char) : l.isPrefixOf (l ++ r) = true := by
  induction l with
  | nil => simp [List.isPrefixOf]
  | cons c cs ih => simp [List.isPrefixOf, ih]

theorem jsStartsWith_append_self (p t : String) : jsStartsWith (p ++ t) p = true := by
  simp [jsStartsWith, string_data_append, isPrefixOf_append_self]

theorem jsSubstringFrom_append (p t : String) :
    jsSubstringFrom (p ++ t) p.data.length = t := by
  cases t with
  | mk td => simp [jsSubstringFrom, string_data_append, List.drop_left]

theorem joinSep_append_single (sep y : String) (xs : List String) (h : xs ≠ []) :
    joinSep sep (xs ++ [y]) = joinSep sep xs ++ sep ++ y := by
  induction xs with
  | nil => exact absurd rfl h
  | cons x xs ih =>
    cases xs with
    | nil => rfl
    | cons z zs =>
      have ih2 := ih (by simp)
      simp only [List.cons_append] at ih2 ⊢
      simp [joinSep, ih2, String.append_assoc]

/-! ## Permutation of the load-time sort -/

theorem insertByIdDesc_perm (x : JVal) (l : List JVal) : (insertByIdDesc x l).Perm (x :: l) := by
  induction l with
  | nil => simp [insertByIdDesc]
  | cons y ys ih =>
    by_cases h : jsIdKey y < jsIdKey x
    · simp [insertByIdDesc, h]
    · simp only [insertByIdDesc, h, if_false, if_neg h]
      exact (ih.cons y).trans (List.Perm.swap x y ys)

theorem sortByIdDesc_perm (l : List JVal) : (sortByIdDesc l).Perm l := by
  induction l with
  | nil => simp [sortByIdDesc]
  | cons x xs ih =>
    exact (insertByIdDesc_perm x (sortByIdDesc xs)).trans (ih.cons x)

/-! ## Frame lemma for the loader -/

theorem loadChatHistory_snd (s : Store) : (loadChatHistory s).2 = s := by
  cases s <;> rfl

/-! ## Structure of saveChatHistory -/

theorem saveConversationStep_fresh (now : Nat) (es : Entries) (c : Conversation)
    (h : alGet es (dirName c.id) = none) :
    saveConversationStep now es c = es ++ [(dirName c.id, .dir (freshConvDir now c))] := by
  unfold saveConversationStep
  dsimp only
  rw [h]
  exact alSet_eq_append _ _ _ h

theorem foldl_saveConversationStep (now : Nat) (L : List Conversation) (es : Entries)
    (hfresh : ∀ c ∈ L, alGet es (dirName c.id) = none)
    (hnd : (L.map fun c => dirName c.id).Nodup) :
    L.foldl (saveConversationStep now) es
      = es ++ L.map fun c => (dirName c.id, FsNode.dir (freshConvDir now c)) := by
  induction L generalizing es with
  | nil => simp
  | cons c L ih =>
    have hc : alGet es (dirName c.id) = none := hfresh c (List.mem_cons_self c L)
    rw [List.map_cons, List.nodup_cons] at hnd
    have hcne : ∀ c' ∈ L, dirName c'.id ≠ dirName c.id := by
      intro c' hc' heq
      exact hnd.1 (heq ▸ List.mem_map_of_mem _ hc')
    have hfresh2 : ∀ c' ∈ L,
        alGet (es ++ [(dirName c.id, FsNode.dir (freshConvDir now c))]) (dirName c'.id) = none := by
      intro c' hc'
      rw [alGet_append_none _ _ _ (hfresh c' (List.mem_cons_of_mem _ hc'))]
      simp [alGet, Ne.symm (hcne c' hc')]
    rw [List.foldl_cons, saveConversationStep_fresh now es c hc, ih _ hfresh2 hnd.2]
    simp

theorem filter_not_filter {α : Type} (p : α → Bool) (l : List α) :
    (l.filter fun a => !(p a)).filter p = [] := by
  induction l with
  | nil => rfl
  | cons a l ih => cases h : p a <;> simp [h, ih]

theorem jsStartsWith_dirName (id : Nat) : jsStartsWith (dirName id) "chat_" = true :=
  jsStartsWith_append_self "chat_" (toString id)

theorem isChatDirEntry_fresh (now : Nat) (c : Conversation) :
    isChatDirEntry (dirName c.id, FsNode.dir (freshConvDir now c)) = true := by
  simp [isChatDirEntry, isDirNode, jsStartsWith_dirName]

theorem readConvBody_fresh (now : Nat) (c : Conversation) :
    readConvBody (dirName c.id, FsNode.dir (freshConvDir now c)) = some (convToJson c) := rfl

theorem filterMap_readConvBody_fresh (now : Nat) (M : List Conversation) :
    ((M.map fun c => (dirName c.id, FsNode.dir (freshConvDir now c))).filterMap readConvBody)
      = M.map convToJson := by
  induction M with
  | nil => rfl
  | cons a l ihl =>
    simp only [List.map_cons, List.filterMap_cons, readConvBody_fresh, ihl]

theorem alGet_clear_none (es : Entries)
    (hnf : (es.all fun p => !(jsStartsWith p.1 "chat_") || isDirNode p.2) = true)
    (nm : String) (hnm : jsStartsWith nm "chat_" = true) :
    alGet (es.filter fun p => !(isChatDirEntry p)) nm = none := by
  apply alGet_eq_none_of_forall
  intro p hp hkey
  have hmem := List.mem_filter.mp hp
  have hdir : isDirNode p.2 = true := by
    have := List.all_eq_true.mp hnf p hmem.1
    rw [hkey] at this
    simpa [hnm] using this
  have : isChatDirEntry p = true := by
    simp [isChatDirEntry, hdir, hkey, hnm]
  simp [this] at hmem

theorem clear_filter_chat (es : Entries) :
    ((es.filter fun p => !(isChatDirEntry p)).filter isChatDirEntry) = [] :=
  filter_not_filter isChatDirEntry es

/-- The common core of the round-trip argument: starting from a cleared
entry list that contains no chat-named entries at all, saving every
conversation of L appends exactly one fresh directory per conversation, and
reloading recovers exactly the bodies of L (up to the sort order). -/
theorem saveChatHistory_roundtrip_core (now : Nat) (L : List Conversation) (es1 : Entries)
    (h1 : ∀ c ∈ L, alGet es1 (dirName c.id) = none)
    (h2 : es1.filter isChatDirEntry = [])
    (hnd : (L.map fun c => dirName c.id).Nodup) :
    (loadChatHistory (some (L.foldl (saveConversationStep now) es1))).1.Perm (L.map convToJson)
      ∧ chatDirNames (some (L.foldl (saveConversationStep now) es1))
          = L.map fun c => dirName c.id := by
  rw [foldl_saveConversationStep now L es1 h1 hnd]
  have hfilter :
      ((es1 ++ L.map fun c => (dirName c.id, FsNode.dir (freshConvDir now c))).filter
        isChatDirEntry)
        = L.map fun c => (dirName c.id, FsNode.dir (freshConvDir now c)) := by
    rw [List.filter_append, h2, List.nil_append]
    apply List.filter_eq_self.mpr
    intro p hp
    obtain ⟨c, _, rfl⟩ := List.mem_map.mp hp
    exact isChatDirEntry_fresh now c
  have hbodies := filterMap_readConvBody_fresh now L
  constructor
  · show (sortByIdDesc
        (((es1 ++ L.map fun c => (dirName c.id, FsNode.dir (freshConvDir now c))).filter
          isChatDirEntry).filterMap readConvBody)).Perm (L.map convToJson)
    rw [hfilter, hbodies]
    exact sortByIdDesc_perm _
  · show (((es1 ++ L.map fun c => (dirName c.id, FsNode.dir (freshConvDir now c))).filter
        isChatDirEntry).map Prod.fst) = L.map fun c => dirName c.id
    rw [hfilter, List.map_map]
    rfl

/-! ## Claim theorems -/

/-- C1: for every conversation list L (with its distinct primary keys, so
distinct directory names) and every starting root without a stray chat_-
named plain file, loadAll; persistAll(L); loadAll returns exactly the
bodies of L (as a permutation: the reload sorts newest first), and after
persistAll the storage root's conversation directories are exactly those of
L — no orphan from a previous generation, no supplied conversation
dropped. -/
theorem C1_persist_roundtrip (now : Nat) (L : List Conversation) (s : Store)
    (hnd : (L.map fun c => dirName c.id).Nodup)
    (hnf : noChatFiles s = true) :
    (loadChatHistory (saveChatHistory now L ((loadChatHistory s).2))).1.Perm (L.map convToJson)
      ∧ chatDirNames (saveChatHistory now L ((loadChatHistory s).2))
          = L.map fun c => dirName c.id := by
  rw [loadChatHistory_snd]
  cases s with
  | none =>
    exact saveChatHistory_roundtrip_core now L [] (fun c _ => rfl) rfl hnd
  | some es =>
    have hall : (es.all fun p => !(jsStartsWith p.1 "chat_") || isDirNode p.2) = true := hnf
    exact saveChatHistory_roundtrip_core now L (es.filter fun p => !(isChatDirEntry p))
      (fun c _ => alGet_clear_none es hall _ (jsStartsWith_dirName c.id))
      (clear_filter_chat es) hnd

/-- Witness for C1 at a concrete list and a concrete dirty root (one loose
file, one orphan conversation directory). -/
theorem C1_persist_roundtrip_witness :
    (loadChatHistory (saveChatHistory 50 [⟨2, "b", []⟩, ⟨1, "a", []⟩]
        ((loadChatHistory (some [("notes.txt", .file (.rawDoc "x")), ("chat_9", .dir [])])).2))).1.Perm
      (([⟨2, "b", []⟩, ⟨1, "a", []⟩] : List Conversation).map convToJson)
    ∧ chatDirNames (saveChatHistory 50 [⟨2, "b", []⟩, ⟨1, "a", []⟩]
        ((loadChatHistory (some [("notes.txt", .file (.rawDoc "x")), ("chat_9", .dir [])])).2))
        = ([⟨2, "b", []⟩, ⟨1, "a", []⟩] : List Conversation).map fun c => dirName c.id :=
  C1_persist_roundtrip 50 [⟨2, "b", []⟩, ⟨1, "a", []⟩]
    (some [("notes.txt", .file (.rawDoc "x")), ("chat_9", .dir [])])
    (by decide) (by decide)

/-- C2: evaluation at the failing input.  The starting root holds the
conversation's directory with a metadata record carrying the caller-defined
field foo; persisting the owning conversation rewrites the record from
scratch (the clear phase at src/main.js:345-354 deleted the record before
the read at 381-391 could see it) and foo is gone, contradicting the
read-modify-write contract and the code's own comment at line 380. -/
theorem C2_extra_field_dropped :
    resolveStore
        (saveChatHistory 100 [⟨5, "t", [⟨"user", "hello"⟩]⟩]
          (some [("chat_5", .dir [("metadata.json",
            .file (.jsonDoc (.obj [("foo", .str "bar")])))])]))
        [dirName 5, "metadata.json"]
      = some (.file (.jsonDoc (.obj
          [("id", .num 5), ("title", .str "t"), ("created", .num 5),
           ("lastModified", .num 100), ("messageCount", .num 1),
           ("version", .str "1.0"), ("projectType", .str "chat")])))
    ∧ getField (JVal.obj
          [("id", .num 5), ("title", .str "t"), ("created", .num 5),
           ("lastModified", .num 100), ("messageCount", .num 1),
           ("version", .str "1.0"), ("projectType", .str "chat")]) "foo" = none :=
  ⟨rfl, rfl⟩

/-- C3: the context-building step is the pure function the spec describes —
empty buffer sends the message verbatim, otherwise buffered messages are
rendered Role: content with user capitalized to User and everything else to
AI, joined by blank lines, with the new message appended as a final User
entry — and the two concrete examples of the spec evaluate as stated. -/
theorem C3_buildContext_correct (buffer : List Message) (msg : String) :
    buildContext buffer msg = buildContextSpec buffer msg
    ∧ buildContext [] "hi" = "hi"
    ∧ buildContext [⟨"user", "a"⟩, ⟨"assistant", "b"⟩] "c" = "User: a\n\nAI: b\n\nUser: c" := by
  refine ⟨?_, rfl, by decide⟩
  cases buffer with
  | nil => rfl
  | cons m ms =>
    unfold buildContext buildContextSpec
    rw [if_pos (by simp), if_neg (by simp)]
    rw [joinSep_append_single _ _ _ (by simp), String.append_assoc, String.append_assoc]
    rfl

/-- C8 (amended): the exchange fails with the transport error on request
failure, and with the invalid-JSON protocol error both on an unparsable
body and on a body that parses to null (the response-field read throws on
null inside the try); every other parsed envelope resolves successfully
with its response field, whatever it is — an error envelope is not
detected and no backend error is raised. -/
theorem C8_response_handling :
    (∀ e, handleApiResponse (.transportError e) = .error (.network e))
    ∧ handleApiResponse (.response none)
        = .error (.protocol "Invalid JSON response from server")
    ∧ handleApiResponse (.response (some .null))
        = .error (.protocol "Invalid JSON response from server")
    ∧ (∀ v, v ≠ JVal.null →
        handleApiResponse (.response (some v)) = .ok (getField v "response")) :=
  ⟨fun _ => rfl, rfl, rfl, fun v hv => by
    cases v with
    | null => exact absurd rfl hv
    | bool b => rfl
    | num n => rfl
    | str s => rfl
    | arr xs => rfl
    | obj fs => rfl⟩

/-- Witness for C8 at a concrete non-null envelope carrying a response
field. -/
theorem C8_response_handling_witness :
    handleApiResponse (.response (some (.obj [("response", .str "ok")])))
      = .ok (some (.str "ok")) :=
  (C8_response_handling.2.2.2 (.obj [("response", .str "ok")]) (by simp)).trans rfl

/-- C8 counterexample: an envelope carrying only an error field makes the
promise resolve successfully (with the undefined response field), where the
claim requires a BackendError rejection. -/
theorem C8_error_envelope_resolves :
    handleApiResponse (.response (some (.obj [("error", .str "model failed")]))) = .ok none :=
  rfl

/-- C9 counterexample: at model claude-sonnet-4-5 with a key present, the
src/main.js manager attaches the claude-api-key header and the
src/unnamed/part_004 manager does not, so the two requests differ. -/
theorem C9_header_condition_differs :
    buildApiRequest "hi" [] "claude-sonnet-4-5" (some "k")
      ≠ buildApiRequestB "hi" [] "claude-sonnet-4-5" (some "k") :=
  fun h => absurd (congrArg ApiRequest.claudeKeyHeader h) (by decide)

/-- C9 (amended): the two managers agree on context building and response
handling everywhere, and build identical requests whenever the model is
neither of the two Claude names or no truthy key is supplied; the only
divergence is the model name guarding the key header. -/
theorem C9_duplicate_agreement (messageContent : String) (buffer : List Message)
    (model : String) (key : Option String) (o : HttpOutcome)
    (h : (model ≠ "claude-sonnet-4-5" ∧ model ≠ "claude-3-5-sonnet")
      ∨ jsStrTruthy key = false) :
    buildApiRequest messageContent buffer model key
        = buildApiRequestB messageContent buffer model key
    ∧ buildContext buffer messageContent = buildContextB buffer messageContent
    ∧ handleApiResponse o = handleApiResponseB o := by
  refine ⟨?_, rfl, ?_⟩
  · rcases h with ⟨hA, hB⟩ | hk
    · have e1 : (model == "claude-sonnet-4-5") = false := by simp [hA]
      have e2 : (model == "claude-3-5-sonnet") = false := by simp [hB]
      simp [buildApiRequest, buildApiRequestB, e1, e2]
      rfl
    · simp [buildApiRequest, buildApiRequestB, hk]
      rfl
  · cases o with
    | transportError e => rfl
    | response d =>
      cases d with
      | none => rfl
      | some v => cases v <;> rfl

/-- Witness for C9 at a non-Claude model with a key supplied. -/
theorem C9_duplicate_agreement_witness :
    buildApiRequest "hi" [] "mistral:latest" (some "k")
        = buildApiRequestB "hi" [] "mistral:latest" (some "k")
    ∧ buildContext [] "hi" = buildContextB [] "hi"
    ∧ handleApiResponse (.response none) = handleApiResponseB (.response none) :=
  C9_duplicate_agreement "hi" [] "mistral:latest" (some "k") (.response none)
    (.inl ⟨by decide, by decide⟩)

/-- C10: the three read operations return the storage root unchanged, for
every starting state including missing directories and unparsable files:
their embeddings consist of read steps only. -/
theorem C10_readers_pure (s : Store) (cid : Nat) (nm ty : String) :
    (loadChatHistory s).2 = s
    ∧ (loadConversationArtifact cid nm ty s).2 = s
    ∧ (getConversationArtifacts cid s).2 = s := by
  refine ⟨loadChatHistory_snd s, ?_, ?_⟩
  · unfold loadConversationArtifact
    split <;> rfl
  · unfold getConversationArtifacts
    split <;> rfl

theorem resolveStore_single (es : Entries) (n : String) :
    resolveStore (some es) [n] = alGet es n := by
  show (match alGet es n with
        | some child => resolveNode child []
        | none => none) = alGet es n
  cases alGet es n <;> simp [resolveNode]

/-- C4: during persistAll, with the metadata record the read step produced
(always a JSON object there): a last user message whose trimmed, lowercased
content is the dataknot: prefix followed by a remainder that trims to
exactly start recipe sets the classification to recipe and refreshes
lastModified to the persist time; any other remainder, and any message
without the prefix, leaves the metadata exactly as the standard-field
update produced it and raises nothing. -/
theorem C4_dataknot_command (now : Nat) (c : Conversation) (m0 : JVal) (msg : Message)
    (hlast : lastUserMessage c = some msg) (hobj : isObj m0 = true) :
    (∀ rest : String, jsToLower (jsTrim msg.content) = "dataknot:" ++ rest →
        jsTrim rest = "start recipe" →
        getField (computeMetadata now c m0) "projectType" = some (.str "recipe")
          ∧ getField (computeMetadata now c m0) "lastModified" = some (.num now))
    ∧ (∀ rest : String, jsToLower (jsTrim msg.content) = "dataknot:" ++ rest →
        jsTrim rest ≠ "start recipe" →
        computeMetadata now c m0 = updateStandardFields now c m0)
    ∧ (jsStartsWith (jsToLower (jsTrim msg.content)) "dataknot:" = false →
        computeMetadata now c m0 = updateStandardFields now c m0) := by
  have hMobj : isObj (updateStandardFields now c m0) = true := by
    rw [isObj_updateStandardFields]; exact hobj
  refine ⟨?_, ?_, ?_⟩
  · intro rest heq hcmd
    have h9 : jsSubstringFrom ("dataknot:" ++ rest) 9 = rest := by
      have h := jsSubstringFrom_append "dataknot:" rest
      rwa [show ("dataknot:" : String).data.length = 9 from rfl] at h
    unfold computeMetadata applyDataKnot
    rw [hlast]
    dsimp only
    rw [heq, if_pos (jsStartsWith_append_self "dataknot:" rest), h9, if_pos hcmd]
    constructor
    · rw [getField_setField_ne _ _ _ _ (by decide)]
      exact getField_setField_self _ _ _ hMobj
    · exact getField_setField_self _ _ _ (by rw [isObj_setField]; exact hMobj)
  · intro rest heq hcmd
    have h9 : jsSubstringFrom ("dataknot:" ++ rest) 9 = rest := by
      have h := jsSubstringFrom_append "dataknot:" rest
      rwa [show ("dataknot:" : String).data.length = 9 from rfl] at h
    unfold computeMetadata applyDataKnot
    rw [hlast]
    dsimp only
    rw [heq, if_pos (jsStartsWith_append_self "dataknot:" rest), h9, if_neg hcmd]
  · intro hns
    unfold computeMetadata applyDataKnot
    rw [hlast]
    dsimp only
    rw [if_neg (by simp [hns])]

/-- Witness for C4: a trailing user message in mixed case with surrounding
whitespace triggers the recipe classification. -/
theorem C4_dataknot_command_witness :
    getField (computeMetadata 7
        ⟨3, "r", [⟨"assistant", "hi"⟩, ⟨"user", "  DataKnot: START Recipe "⟩]⟩
        (JVal.obj [])) "projectType" = some (.str "recipe")
    ∧ getField (computeMetadata 7
        ⟨3, "r", [⟨"assistant", "hi"⟩, ⟨"user", "  DataKnot: START Recipe "⟩]⟩
        (JVal.obj [])) "lastModified" = some (.num 7) :=
  (C4_dataknot_command 7
      ⟨3, "r", [⟨"assistant", "hi"⟩, ⟨"user", "  DataKnot: START Recipe "⟩]⟩
      (JVal.obj []) ⟨"user", "  DataKnot: START Recipe "⟩ rfl rfl).1
    " start recipe" (by decide) (by decide)

/-- C6 (amended): artifact load returns the null sentinel without raising
when the file does not exist; and when the stored payload is not valid
JSON, the parse failure is thrown inside the method, caught by its own
catch, and the caller receives the same null sentinel — a successful
result, not a propagated ParseError. -/
theorem C6_artifact_load_sentinel (cid : Nat) (nm ty : String) (s : Store) :
    (resolveStore s [dirName cid, "artifacts", nm] = none →
        loadArtifactBody cid nm ty s = .ok none
          ∧ loadConversationArtifact cid nm ty s = (.ok none, s))
    ∧ (∀ txt : String,
        resolveStore s [dirName cid, "artifacts", nm] = some (.file (.rawDoc txt)) →
        loadArtifactBody cid nm "json" s = .error "SyntaxError: Unexpected token in JSON"
          ∧ loadConversationArtifact cid nm "json" s = (.ok none, s)) := by
  constructor
  · intro h
    have hb : loadArtifactBody cid nm ty s = .ok none := by
      unfold loadArtifactBody
      rw [h]
    exact ⟨hb, by unfold loadConversationArtifact; rw [hb]⟩
  · intro txt h
    have hb : loadArtifactBody cid nm "json" s
        = .error "SyntaxError: Unexpected token in JSON" := by
      unfold loadArtifactBody
      rw [h]
      rfl
    exact ⟨hb, by unfold loadConversationArtifact; rw [hb]⟩

/-- Witness for C6 on a missing artifact: the sentinel comes back and no
error escapes. -/
theorem C6_artifact_load_sentinel_witness :
    loadArtifactBody 2 "a.json" "json" (some []) = .ok none
    ∧ loadConversationArtifact 2 "a.json" "json" (some []) = (.ok none, some []) :=
  (C6_artifact_load_sentinel 2 "a.json" "json" (some [])).1 rfl

/-- C6 counterexample: an artifact whose content is not valid JSON exists;
the inner read throws the parse error, but the method returns the
not-found sentinel successfully instead of propagating it. -/
theorem C6_parse_failure_returns_null :
    loadConversationArtifact 1 "x.json" "json"
        (some [("chat_1", .dir [("artifacts", .dir [("x.json", .file (.rawDoc "not json"))])])])
      = (.ok none,
         some [("chat_1", .dir [("artifacts", .dir [("x.json", .file (.rawDoc "not json"))])])])
    ∧ loadArtifactBody 1 "x.json" "json"
        (some [("chat_1", .dir [("artifacts", .dir [("x.json", .file (.rawDoc "not json"))])])])
      = .error "SyntaxError: Unexpected token in JSON" :=
  ⟨rfl, rfl⟩

/-- C7 (amended): on a root where no plain file squats on the conversation
or artifacts path, artifact save with an encoding other than json, text or
binary throws the unsupported-type error inside the method, the method's
own catch swallows it so the caller sees a normal return, and no artifact
file is written (the conversation and artifacts directories may still be
created, since those mkdir calls run before the switch). -/
theorem C7_unknown_encoding_no_write (cid : Nat) (nm : String) (d : ArtifactData)
    (ty : String) (s : Store)
    (hwf : convPathWF s cid = true)
    (h1 : ty ≠ "json") (h2 : ty ≠ "text") (h3 : ty ≠ "binary") :
    (saveConversationArtifact cid nm d ty s).1 = .ok ()
    ∧ (saveArtifactBody cid nm d ty s).1 = .error ("Unsupported artifact type: " ++ ty)
    ∧ resolveStore (saveConversationArtifact cid nm d ty s).2 [dirName cid, "artifacts", nm]
        = resolveStore s [dirName cid, "artifacts", nm] := by
  have henc : encodeArtifact d ty = .error ("Unsupported artifact type: " ++ ty) := by
    unfold encodeArtifact
    rw [if_neg h1, if_neg h2, if_neg h3]
  cases s with
  | none =>
    refine ⟨?_, ?_, ?_⟩ <;>
      simp [saveConversationArtifact, saveArtifactBody, saveArtifactInConv,
        saveArtifactInArtifacts, henc, resolveStore, resolveNode, alGet, alSet]
  | some es =>
    cases hroot : alGet es (dirName cid) with
    | none =>
      refine ⟨?_, ?_, ?_⟩ <;>
        simp [saveConversationArtifact, saveArtifactBody, saveArtifactInConv,
          saveArtifactInArtifacts, henc, hroot, resolveStore, resolveNode,
          alGet_alSet_self, alGet, alSet]
    | some node =>
      cases node with
      | file f => simp [convPathWF, hroot] at hwf
      | dir convEs =>
        cases hart : alGet convEs "artifacts" with
        | none =>
          refine ⟨?_, ?_, ?_⟩ <;>
            simp [saveConversationArtifact, saveArtifactBody, saveArtifactInConv,
              saveArtifactInArtifacts, henc, hroot, hart, resolveStore, resolveNode,
              alGet_alSet_self, alGet, alSet]
        | some anode =>
          cases anode with
          | file f => simp [convPathWF, hroot, hart] at hwf
          | dir artEs =>
            refine ⟨?_, ?_, ?_⟩ <;>
              simp [saveConversationArtifact, saveArtifactBody, saveArtifactInConv,
                saveArtifactInArtifacts, henc, hroot, hart, resolveStore, resolveNode,
                alGet_alSet_self]

/-- Witness for C7 at the unknown encoding xml on an empty root. -/
theorem C7_unknown_encoding_no_write_witness :
    (saveConversationArtifact 3 "x" (.jsv (.str "p")) "xml" (some [])).1 = .ok ()
    ∧ (saveArtifactBody 3 "x" (.jsv (.str "p")) "xml" (some [])).1
        = .error ("Unsupported artifact type: " ++ "xml")
    ∧ resolveStore (saveConversationArtifact 3 "x" (.jsv (.str "p")) "xml" (some [])).2
        [dirName 3, "artifacts", "x"]
        = resolveStore (some []) [dirName 3, "artifacts", "x"] :=
  C7_unknown_encoding_no_write 3 "x" (.jsv (.str "p")) "xml" (some [])
    (by decide) (by decide) (by decide) (by decide)

/-- C7 counterexample: the unsupported-encoding failure is thrown inside
the method (second conjunct) but the caller observes a normal, successful
return (first conjunct) — the condition is not surfaced; only the ambient
directories were created, no artifact file. -/
theorem C7_unknown_encoding_not_surfaced :
    saveConversationArtifact 1 "r.xml" (.jsv (.str "d")) "xml" (some [])
      = (.ok (), some [("chat_1", .dir [("artifacts", .dir [])])])
    ∧ saveArtifactBody 1 "r.xml" (.jsv (.str "d")) "xml" (some [])
      = (.error "Unsupported artifact type: xml",
         some [("chat_1", .dir [("artifacts", .dir [])])]) :=
  ⟨rfl, rfl⟩

/-- C5 (amended): after initialize, every chat_-prefixed conversation
directory whose metadata record exists and parses as a JSON object carries
a truthy classification tag (backfilled to chat when it was absent or
falsy).  Directories without a parseable metadata record are not touched
(see the counterexample). -/
theorem C5_backfill_parsed_metadata (now : Nat) (s : Store) (n : String)
    (es : Entries) (v : JVal)
    (hn : jsStartsWith n "chat_" = true)
    (hdir : resolveStore s [n] = some (.dir es))
    (hmeta : alGet es "metadata.json" = some (.file (.jsonDoc v)))
    (hobj : isObj v = true) :
    ∃ es2 v2,
      resolveStore (initChatHistory now s).2 [n] = some (.dir es2)
      ∧ alGet es2 "metadata.json" = some (.file (.jsonDoc v2))
      ∧ jsFalsy (getField v2 "projectType") = false := by
  cases s with
  | none => simp [resolveStore] at hdir
  | some es0 =>
    rw [resolveStore_single] at hdir
    have hsnd : (initChatHistory now (some es0)).2
        = initializeDefaultProjectTypes now (createArtifactsDirectories (some es0)) := by
      unfold initChatHistory
      dsimp only
      rw [loadChatHistory_snd]
    rw [hsnd]
    unfold createArtifactsDirectories initializeDefaultProjectTypes
    dsimp only
    rw [resolveStore_single, alGet_map_keyed, alGet_map_keyed, hdir]
    simp only [Option.map_some']
    have hens : ∃ es1, ensureArtifactsNode n (.dir es) = .dir es1
        ∧ alGet es1 "metadata.json" = some (.file (.jsonDoc v)) := by
      unfold ensureArtifactsNode
      dsimp only
      rw [if_pos hn]
      by_cases hart : (alGet es "artifacts").isSome
      · rw [if_pos hart]
        exact ⟨es, rfl, hmeta⟩
      · rw [if_neg hart]
        exact ⟨alSet es "artifacts" (.dir []), rfl, by
          rw [alGet_alSet_ne _ _ _ _ (by decide)]; exact hmeta⟩
    obtain ⟨es1, he1, hm1⟩ := hens
    rw [he1]
    unfold backfillTypeNode
    dsimp only
    rw [if_pos hn, hm1]
    dsimp only
    by_cases hf : jsFalsy (getField v "projectType") = true
    · rw [if_pos hf]
      refine ⟨alSet es1 "metadata.json" (.file (.jsonDoc
          (setField (setField v "projectType" (.str "chat")) "lastModified" (.num now)))),
        setField (setField v "projectType" (.str "chat")) "lastModified" (.num now),
        rfl, alGet_alSet_self _ _ _, ?_⟩
      rw [getField_setField_ne _ _ _ _ (by decide), getField_setField_self _ _ _ hobj]
      rfl
    · rw [if_neg hf]
      exact ⟨es1, v, rfl, hm1, by simpa using hf⟩

/-- Witness for C5 at a conversation directory whose metadata parses but
lacks the classification tag: initialization backfills it. -/
theorem C5_backfill_parsed_metadata_witness :
    ∃ es2 v2,
      resolveStore (initChatHistory 100 (some [("chat_2", .dir [("metadata.json",
          .file (.jsonDoc (.obj [("title", .str "x")])))])])).2 ["chat_2"]
        = some (.dir es2)
      ∧ alGet es2 "metadata.json" = some (.file (.jsonDoc v2))
      ∧ jsFalsy (getField v2 "projectType") = false :=
  C5_backfill_parsed_metadata 100
    (some [("chat_2", .dir [("metadata.json", .file (.jsonDoc (.obj [("title", .str "x")])))])])
    "chat_2" [("metadata.json", .file (.jsonDoc (.obj [("title", .str "x")])))]
    (.obj [("title", .str "x")]) (by decide) rfl rfl rfl

/-- C5 counterexample: a conversation directory with no metadata record at
all still has none after initialize — the legacy backfill never creates a
missing record, contradicting the claim that such directories end up with
a non-empty record carrying a classification. -/
theorem C5_missing_metadata_not_backfilled :
    resolveStore (initChatHistory 100 (some [("chat_1", .dir [])])).2
        ["chat_1", "metadata.json"] = none
    ∧ resolveStore (initChatHistory 100 (some [("chat_1", .dir [])])).2 ["chat_1"]
        = some (.dir [("artifacts", .dir [])]) :=
  ⟨rfl, rfl⟩
